import Mathlib

/-!
Shallow embedding of the xsukax E2E chatroom server (chat_server.py).

Modelling conventions:
- Python dicts become association lists in insertion order; Python sets
  become duplicate-free lists in insertion order (set.add appends when the
  element is new, set.discard filters).
- defaultdict reads are modelled as reads with a default value; the
  side effect of materialising an empty entry on read is dropped, since it
  is invisible to every lookup.
- Wall-clock timestamps are Nat seconds for the flood window; the ISO
  timestamp strings attached to outbound frames are omitted, since they
  carry no protocol state.
- Outbound transport sends always succeed in this model; the cleanup paths
  for peers that fail mid-send are therefore dead code here.
- SQLite tables are lists of rows; the UNIQUE constraints are modelled by
  the membership tests the code relies on.
-/

namespace Chat

/-- Association list read with a default, mirroring dict.get / defaultdict. -/
def alist_get {α : Type} (m : List (String × α)) (k : String) (dflt : α) : α :=
  match m.find? (fun p => p.fst == k) with
  | some p => p.snd
  | none => dflt

/-- Association list write, mirroring dict item assignment. -/
def alist_set {α : Type} (m : List (String × α)) (k : String) (v : α) : List (String × α) :=
  if m.any (fun p => p.fst == k) then
    m.map (fun p => if p.fst == k then (k, v) else p)
  else m ++ [(k, v)]

/-- Association list delete, mirroring the del statement. -/
def alist_erase {α : Type} (m : List (String × α)) (k : String) : List (String × α) :=
  m.filter (fun p => !(p.fst == k))

/-- Python set.add on the insertion-ordered list model of a set. -/
def set_add (l : List String) (x : String) : List String :=
  if l.contains x then l else l ++ [x]

/-- Python set.discard on the insertion-ordered list model of a set. -/
def set_discard (l : List String) (x : String) : List String :=
  l.filter (fun y => !(y == x))

/-- Python str.lower, applied character by character. -/
def pyLower (s : String) : String :=
  String.mk (s.data.map Char.toLower)

/-- Membership in the character class of the regex [a-zA-Z0-9_-]. -/
def isUnameChar (c : Char) : Bool :=
  c.isAlpha || c.isDigit || c == '_' || c == '-'

/-- Truthiness of an optional string, as Python tests dict.get results. -/
def truthy (o : Option String) : Bool :=
  match o with
  | some s => s != ""
  | none => false

/-- The string carried by an optional field, empty when absent. -/
def opt_str (o : Option String) : String := o.getD ""

/-- Drop leading whitespace characters from a character list. -/
def dropLeadingWs : List Char → List Char
  | [] => []
  | c :: r => if c.isWhitespace then dropLeadingWs r else c :: r

/-- Python str.strip: remove leading and trailing whitespace. -/
def pyStrip (s : String) : String :=
  String.mk ((dropLeadingWs (dropLeadingWs s.data).reverse).reverse)

/-- Does the string start with the given character? -/
def pyStartsWith (s : String) (c : Char) : Bool :=
  match s.data with
  | [] => false
  | d :: _ => d == c

/-- Split a character list at the first space, Python split(chr 32, 1). -/
def break1 : List Char → List Char × Option (List Char)
  | [] => ([], none)
  | c :: r =>
    if c == ' ' then ([], some r)
    else
      let p := break1 r
      (c :: p.fst, p.snd)

/-- Python content[1:].split(chr 32, 1): command word and argument remainder. -/
def splitFirstSpace (s : String) : String × String :=
  match break1 s.data with
  | (a, none) => (String.mk a, "")
  | (a, some b) => (String.mk a, String.mk b)

/-- A computable string order on the scalar values, the SQLite ORDER BY. -/
def charListLe : List Char → List Char → Bool
  | [], _ => true
  | _ :: _, [] => false
  | a :: as, b :: bs =>
    if a.toNat < b.toNat then true
    else if b.toNat < a.toNat then false
    else charListLe as bs

/-- String comparison for the rooms listing order. -/
def strLe (a b : String) : Bool := charListLe a.data b.data

/-- Zero padding of the 4-digit auto username counter, Python format 04d. -/
def pad4 (n : Nat) : String :=
  let s := toString n
  if s.length < 4 then String.mk (List.replicate (4 - s.length) '0') ++ s else s

/-- One row of the SQLite rooms table (created_at omitted). -/
structure RoomRow where
  name : String
  created_by : String
  is_active : Bool
deriving DecidableEq

/-- The SQLite database: rooms and user_rooms tables. -/
structure DB where
  rooms : List RoomRow
  user_rooms : List (String × String)
deriving DecidableEq

/-- The database after init_database on a fresh file: the seeded main room. -/
def initDB : DB :=
  { rooms := [{ name := "main", created_by := "system", is_active := true }], user_rooms := [] }

/-- The room catalog state: the database plus the two in-memory membership maps. -/
structure Catalog where
  db : DB
  user_rooms : List (String × List String)
  room_users : List (String × List String)
deriving DecidableEq

/-- Does any row of the rooms table carry this name (active or not)? This is
what the UNIQUE constraint on rooms.name tests on INSERT. -/
def room_exists_any (db : DB) (n : String) : Bool :=
  db.rooms.any (fun r => r.name == n)

/-- Is there an active room of this name? The SELECT used by delete_room and
join_room. -/
def room_active (db : DB) (n : String) : Bool :=
  db.rooms.any (fun r => r.name == n && r.is_active)

/-- ChatServer.create_room: INSERT INTO rooms; IntegrityError when the name
is already a row, active or soft-deleted. -/
def create_room (db : DB) (room_name created_by : String) : (Bool × String) × DB :=
  if room_exists_any db room_name then
    ((false, "Room \x27" ++ room_name ++ "\x27 already exists"), db)
  else
    ((true, "Room \x27" ++ room_name ++ "\x27 created successfully"),
      { db with rooms := db.rooms ++ [{ name := room_name, created_by := created_by, is_active := true }] })

/-- ChatServer.delete_room: refuses main, soft-deletes by clearing is_active,
drops the membership rows, and detaches live members in memory. -/
def delete_room (c : Catalog) (room_name admin_username : String) : (Bool × String) × Catalog :=
  if room_name == "main" then
    ((false, "Cannot delete the main room"), c)
  else if !(room_active c.db room_name) then
    ((false, "Room \x27" ++ room_name ++ "\x27 does not exist"), c)
  else
    let db : DB :=
      { rooms := c.db.rooms.map (fun r => if r.name == room_name then { r with is_active := false } else r),
        user_rooms := c.db.user_rooms.filter (fun p => !(p.snd == room_name)) }
    let members := alist_get c.room_users room_name []
    let inMem := c.room_users.any (fun p => p.fst == room_name)
    let ur := if inMem then
        members.foldl (fun m u => alist_set m u (set_discard (alist_get m u []) room_name)) c.user_rooms
      else c.user_rooms
    let rus := if inMem then alist_erase c.room_users room_name else c.room_users
    ((true, "Room \x27" ++ room_name ++ "\x27 deleted successfully"),
      { db := db, user_rooms := ur, room_users := rus })

/-- ChatServer.join_room: requires an active room, INSERT OR IGNORE the
membership row, and add to both in-memory maps. -/
def join_room (c : Catalog) (username room_name : String) : (Bool × String) × Catalog :=
  if !(room_active c.db room_name) then
    ((false, "Room \x27" ++ room_name ++ "\x27 does not exist"), c)
  else
    let db :=
      if c.db.user_rooms.any (fun p => p.fst == username && p.snd == room_name) then c.db
      else { c.db with user_rooms := c.db.user_rooms ++ [(username, room_name)] }
    ((true, "Joined room \x27" ++ room_name ++ "\x27"),
      { db := db,
        user_rooms := alist_set c.user_rooms username (set_add (alist_get c.user_rooms username []) room_name),
        room_users := alist_set c.room_users room_name (set_add (alist_get c.room_users room_name []) username) })

/-- ChatServer.leave_room: refuses main, deletes the membership row, and
removes from both in-memory maps. -/
def leave_room (c : Catalog) (username room_name : String) : (Bool × String) × Catalog :=
  if room_name == "main" then
    ((false, "Cannot leave the main room"), c)
  else
    ((true, "Left room \x27" ++ room_name ++ "\x27"),
      { db := { c.db with user_rooms := c.db.user_rooms.filter (fun p => !(p.fst == username && p.snd == room_name)) },
        user_rooms := alist_set c.user_rooms username (set_discard (alist_get c.user_rooms username []) room_name),
        room_users := alist_set c.room_users room_name (set_discard (alist_get c.room_users room_name []) username) })

/-- An entry of a rooms listing (created_at omitted). -/
structure RoomInfo where
  name : String
  created_by : String
deriving DecidableEq

/-- Insert into a name-sorted rooms listing. -/
def insertRoomSorted (r : RoomInfo) : List RoomInfo → List RoomInfo
  | [] => [r]
  | x :: xs => if strLe r.name x.name then r :: x :: xs else x :: insertRoomSorted r xs

/-- Sort a rooms listing by name. -/
def sortRoomsByName (l : List RoomInfo) : List RoomInfo :=
  l.foldr insertRoomSorted []

/-- ChatServer.get_active_rooms: active rooms ordered by name. -/
def get_active_rooms (db : DB) : List RoomInfo :=
  sortRoomsByName ((db.rooms.filter (fun r => r.is_active)).map (fun r => RoomInfo.mk r.name r.created_by))

/-- ChatServer.get_user_rooms: the in-memory room set of a user. -/
def get_user_rooms (c : Catalog) (username : String) : List String :=
  alist_get c.user_rooms username []

/-- ChatServer.load_user_rooms_from_db: rehydrate the membership maps for a
user from the rows that join an active room. -/
def load_user_rooms_from_db (c : Catalog) (username : String) : List String × Catalog :=
  let rooms := (c.db.user_rooms.filter
    (fun p => p.fst == username && room_active c.db p.snd)).map (fun p => p.snd)
  let ur := alist_set c.user_rooms username rooms
  let rus := rooms.foldl (fun m rn => alist_set m rn (set_add (alist_get m rn []) username)) c.room_users
  (rooms, { c with user_rooms := ur, room_users := rus })

/-- ChatServer.validate_username. -/
def validate_username (usernames : List String) (username : String) : Bool × String :=
  if username == "" then (false, "Username cannot be empty")
  else if !(username != "" && username.data.all isUnameChar) then
    (false, "Username can only contain letters, numbers, underscore, and hyphen")
  else if username.data.length < 2 || username.data.length > 20 then
    (false, "Username must be between 2 and 20 characters")
  else if (usernames.map pyLower).contains (pyLower username) then
    (false, "Username is already taken")
  else (true, "Valid")

/-- ChatServer.validate_room_name: strips an optional leading hash, then the
same grammar and length checks; returns the stripped name when valid. -/
def validate_room_name (room_name : String) : Bool × String :=
  if room_name == "" then (false, "Room name cannot be empty")
  else
    let rn := if pyStartsWith room_name '#' then room_name.drop 1 else room_name
    if !(rn != "" && rn.data.all isUnameChar) then
      (false, "Room name can only contain letters, numbers, underscore, and hyphen")
    else if rn.data.length < 2 || rn.data.length > 20 then
      (false, "Room name must be between 2 and 20 characters")
    else (true, rn)

/-- The search loop of ChatServer.generate_auto_username, with fuel. -/
def gen_auto_aux : Nat → Nat → List String → String × Nat
  | 0, counter, _ => ("xsukax" ++ pad4 counter, counter)
  | fuel + 1, counter, usernames =>
    let username := "xsukax" ++ pad4 counter
    if usernames.contains username then gen_auto_aux fuel (counter + 1) usernames
    else (username, counter)

/-- ChatServer.generate_auto_username: first free name xsukaxNNNN from the
counter on; returns the name and the counter position that produced it.
The fuel covers one candidate per taken name plus one, which by pigeonhole
always suffices. -/
def generate_auto_username (counter : Nat) (usernames : List String) : String × Nat :=
  gen_auto_aux (usernames.length + 1) counter usernames

/-- The front-trimming while loop of check_flood_protection: pop entries
strictly older than 60 seconds. -/
def trim_window (now : Nat) : List Nat → List Nat
  | [] => []
  | t :: rest => if now - t > 60 then trim_window now rest else t :: rest

/-- ChatServer.check_flood_protection as a pure function from the current
window to the flood verdict and the new window. Admins return immediately. -/
def check_flood_protection (now : Nat) (window : List Nat) (is_admin : Bool) : Bool × List Nat :=
  if is_admin then (false, window)
  else
    let trimmed := trim_window now window
    if trimmed.length ≥ 30 then (true, trimmed)
    else (false, trimmed ++ [now])

/-- A live session record (the user_data dict): identity, peer address,
admin flag, join time, last ping. -/
structure Session where
  username : String
  ip : String
  is_admin : Bool
  joined_at : String
  last_ping : Nat
deriving DecidableEq

/-- One entry of a users listing, with the optional public key. -/
structure UserInfo where
  username : String
  ip : String
  is_admin : Bool
  joined_at : String
  public_key : Option String
deriving DecidableEq

/-- An inbound frame: every key the dispatcher reads, each optional. -/
structure Frame where
  message_type : Option String := none
  content : Option String := none
  room : Option String := none
  username : Option String := none
  recipient_username : Option String := none
  encrypted_content : Option String := none
  public_key : Option String := none
  room_name : Option String := none
deriving DecidableEq

/-- An outbound frame, one constructor per type value the server emits
(ISO timestamps omitted). The chat fan-out frame of type message is the
message constructor. -/
inductive OutFrame where
  | error (message : String)
  | welcome (username message : String) (rooms : List String)
  | help (message : String)
  | pong
  | message (username content : String) (is_admin : Bool)
  | private_message (from_username encrypted_content : String) (is_admin : Bool)
  | user_joined (username message : String)
  | user_left (username message : String)
  | user_renamed (old_username new_username message : String)
  | user_joined_room (username message : String)
  | user_left_room (username message : String)
  | user_kicked (message : String)
  | user_banned (message : String)
  | kicked (message : String)
  | banned (message : String)
  | username_changed (old_username new_username message : String)
  | key_registered (message : String)
  | admin_success (message : String)
  | users_list (users : List UserInfo)
  | room_users_list (room_name : String) (users : List UserInfo)
  | rooms_list (rooms : List RoomInfo)
  | room_joined (room_name message : String)
  | room_left (room_name message : String)
  | room_created (message : String)
  | room_deleted_ack (message : String)
  | room_deleted (room_name message : String)
  | user_info (target username ip : String) (is_admin : Bool) (joined_at : String) (rooms : List String)
  | ban_success (message : String)
deriving DecidableEq

/-- An observable transport action: a frame sent to one connection (tagged
with the room key that broadcast_to_room adds), or a close of a connection. -/
inductive Out where
  | send (conn : Nat) (room : Option String) (frame : OutFrame)
  | close (conn : Nat)
deriving DecidableEq

/-- The shared mutable state of ChatServer. Connections are identified by
Nat ids standing for the websocket objects; clients is the dict from
connection to user_data in insertion order. -/
structure ServerState where
  clients : List (Nat × Session)
  user_counter : Nat
  banned_ips : List String
  admin_password : String
  public_keys : List (String × String)
  usernames : List String
  user_message_times : List (String × List Nat)
  catalog : Catalog
deriving DecidableEq

/-- The state right after ChatServer.__init__, parametrised by the loaded
ban list and the generated admin password. -/
def initServer (pw : String) (banned : List String) : ServerState :=
  { clients := [], user_counter := 1, banned_ips := banned, admin_password := pw,
    public_keys := [], usernames := [], user_message_times := [],
    catalog := { db := initDB, user_rooms := [], room_users := [] } }

/-- Lookup of the session of a connection, mirroring self.clients[ws]. -/
def clients_get (st : ServerState) (conn : Nat) : Option Session :=
  match st.clients.find? (fun p => p.fst == conn) with
  | some p => some p.snd
  | none => none

/-- ChatServer.get_users_list. -/
def get_users_list (st : ServerState) : List UserInfo :=
  st.clients.map (fun p =>
    { username := p.snd.username, ip := p.snd.ip, is_admin := p.snd.is_admin,
      joined_at := p.snd.joined_at,
      public_key := (st.public_keys.find? (fun q => q.fst == p.snd.username)).map (fun q => q.snd) })

/-- ChatServer.get_room_users_detailed: for each member of the room, the
record of the first client carrying that username. -/
def get_room_users_detailed (st : ServerState) (room_name : String) : List UserInfo :=
  if !(st.catalog.room_users.any (fun p => p.fst == room_name)) then []
  else
    (alist_get st.catalog.room_users room_name []).filterMap (fun username =>
      match st.clients.find? (fun p => p.snd.username == username) with
      | some p => some
          { username := p.snd.username, ip := p.snd.ip, is_admin := p.snd.is_admin,
            joined_at := p.snd.joined_at,
            public_key := (st.public_keys.find? (fun q => q.fst == p.snd.username)).map (fun q => q.snd) }
      | none => none)

/-- ChatServer.broadcast_message: send to every client but the excluded one. -/
def broadcast_message (st : ServerState) (exclude : Option Nat) (f : OutFrame) : List Out :=
  (st.clients.filter (fun p => !(exclude == some p.fst))).map (fun p => Out.send p.fst none f)

/-- ChatServer.broadcast_to_room: send, tagged with the room, to every client
whose username is a member of the room, but the excluded one. -/
def broadcast_to_room (st : ServerState) (room_name : String) (exclude : Option Nat) (f : OutFrame) : List Out :=
  if !(st.catalog.room_users.any (fun p => p.fst == room_name)) then []
  else
    (st.clients.filter (fun p =>
      !(exclude == some p.fst) && (alist_get st.catalog.room_users room_name []).contains p.snd.username)).map
      (fun p => Out.send p.fst (some room_name) f)

/-- ChatServer.broadcast_users_list. -/
def broadcast_users_list (st : ServerState) : List Out :=
  broadcast_message st none (OutFrame.users_list (get_users_list st))

/-- ChatServer.broadcast_room_users_list. -/
def broadcast_room_users_list (st : ServerState) (room_name : String) : List Out :=
  broadcast_to_room st room_name none (OutFrame.room_users_list room_name (get_room_users_detailed st room_name))

/-- ChatServer.broadcast_rooms_list. -/
def broadcast_rooms_list (st : ServerState) : List Out :=
  broadcast_message st none (OutFrame.rooms_list (get_active_rooms st.catalog.db))

/-- The tail of ChatServer.register_client after a username has been fixed:
reserve the name, create the session, rehydrate rooms, force-join main,
send the welcome and the four kinds of update broadcasts. -/
def register_finish (st : ServerState) (conn : Nat) (ip username : String) (counter2 : Nat)
    (now : Nat) (nowIso : String) : Option Session × ServerState × List Out :=
  let sess : Session :=
    { username := username, ip := ip, is_admin := false, joined_at := nowIso, last_ping := now }
  let st := { st with usernames := set_add st.usernames username, user_counter := counter2,
                      clients := st.clients ++ [(conn, sess)] }
  let lr := load_user_rooms_from_db st.catalog username
  let st := { st with catalog := lr.snd }
  let st := if !(lr.fst.contains ("main")) then
      { st with catalog := (join_room st.catalog username ("main")).snd }
    else st
  let outs :=
    [Out.send conn none (OutFrame.welcome username ("Connected as " ++ username) (get_user_rooms st.catalog username))]
    ++ broadcast_to_room st ("main") (some conn)
        (OutFrame.user_joined username (username ++ " joined the chat"))
    ++ broadcast_users_list st
    ++ broadcast_rooms_list st
    ++ ((get_user_rooms st.catalog username).map (fun rn => broadcast_room_users_list st rn)).flatten
  (some sess, st, outs)

/-- ChatServer.register_client: ban check, username choice and validation,
then registration. Returns the created session, or none on rejection. -/
def register_client (st : ServerState) (conn : Nat) (ip : String) (custom_username : Option String)
    (now : Nat) (nowIso : String) : Option Session × ServerState × List Out :=
  if st.banned_ips.contains ip then
    (none, st, [Out.send conn none (OutFrame.error "You are banned from this server")])
  else
    match custom_username with
    | some u =>
      let v := validate_username st.usernames u
      if v.fst then register_finish st conn ip u st.user_counter now nowIso
      else (none, st, [Out.send conn none (OutFrame.error ("Invalid username: " ++ v.snd))])
    | none =>
      let g := generate_auto_username st.user_counter st.usernames
      register_finish st conn ip g.fst (g.snd + 1) now nowIso

/-- ChatServer.unregister_client: detach the session from every room with
the per-room leave broadcasts, then drop every index entry it owns. -/
def unregister_client (st : ServerState) (conn : Nat) : ServerState × List Out :=
  match st.clients.find? (fun p => p.fst == conn) with
  | none => (st, [])
  | some pc =>
    let username := pc.snd.username
    let rooms := alist_get st.catalog.user_rooms username []
    let acc := rooms.foldl (fun (acc : ServerState × List Out) rn =>
      let st := acc.fst
      let st := { st with catalog := { st.catalog with
        room_users := alist_set st.catalog.room_users rn (set_discard (alist_get st.catalog.room_users rn []) username) } }
      let o1 := broadcast_to_room st rn none (OutFrame.user_left username (username ++ " left " ++ rn))
      let o2 := broadcast_room_users_list st rn
      (st, acc.snd ++ o1 ++ o2)) (st, [])
    let st := acc.fst
    let st := { st with
      usernames := set_discard st.usernames username,
      public_keys := alist_erase st.public_keys username,
      user_message_times := alist_erase st.user_message_times username,
      catalog := { st.catalog with user_rooms := alist_erase st.catalog.user_rooms username },
      clients := st.clients.filter (fun p => !(p.fst == conn)) }
    (st, acc.snd ++ broadcast_users_list st)

/-- ChatServer.handle_ping: refresh last_ping and reply pong. -/
def handle_ping (st : ServerState) (conn : Nat) (now : Nat) : ServerState × List Out :=
  match st.clients.find? (fun p => p.fst == conn) with
  | none => (st, [])
  | some _ =>
    ({ st with clients := st.clients.map (fun p =>
        if p.fst == conn then (p.fst, { p.snd with last_ping := now }) else p) },
     [Out.send conn none OutFrame.pong])

/-- ChatServer.handle_public_key_register. -/
def handle_public_key_register (st : ServerState) (conn : Nat) (public_key : String) : ServerState × List Out :=
  match clients_get st conn with
  | none => (st, [])
  | some user_data =>
    let st := { st with public_keys := alist_set st.public_keys user_data.username public_key }
    (st, [Out.send conn none (OutFrame.key_registered "Public key registered successfully")]
      ++ broadcast_users_list st
      ++ ((get_user_rooms st.catalog user_data.username).map (fun rn => broadcast_room_users_list st rn)).flatten)

/-- ChatServer.send_private_message: deliver to the first client whose
username equals the recipient; sends always succeed in this model, so the
state is untouched and the result is the success flag and the sends. -/
def send_private_message (st : ServerState) (sender_conn : Nat) (recipient_username encrypted_message : String) :
    Bool × List Out :=
  match clients_get st sender_conn with
  | none => (false, [])
  | some sender_data =>
    match st.clients.find? (fun p => p.snd.username == recipient_username) with
    | some pr => (true,
        [Out.send pr.fst none (OutFrame.private_message sender_data.username encrypted_message sender_data.is_admin)])
    | none => (false, [])

/-- ChatServer.handle_username_change. -/
def handle_username_change (st : ServerState) (conn : Nat) (new_username : String) : ServerState × List Out :=
  match clients_get st conn with
  | none => (st, [])
  | some user_data =>
    let old_username := user_data.username
    let v := validate_username st.usernames new_username
    if !v.fst then
      (st, [Out.send conn none (OutFrame.error ("Cannot change username: " ++ v.snd))])
    else
      let renamed_rows := st.catalog.db.user_rooms.map
        (fun p => if p.fst == old_username then (new_username, p.snd) else p)
      let st := { st with catalog := { st.catalog with db := { st.catalog.db with user_rooms := renamed_rows } } }
      let st := { st with usernames := set_add (set_discard st.usernames old_username) new_username }
      let st := { st with clients := st.clients.map (fun (p : Nat × Session) =>
        if p.fst == conn then (p.fst, { p.snd with username := new_username }) else p) }
      let st := if st.public_keys.any (fun p => p.fst == old_username) then
          { st with public_keys :=
            alist_erase (alist_set st.public_keys new_username (alist_get st.public_keys old_username "")) old_username }
        else st
      let st := if st.user_message_times.any (fun p => p.fst == old_username) then
          { st with user_message_times :=
            alist_erase (alist_set st.user_message_times new_username (alist_get st.user_message_times old_username [])) old_username }
        else st
      let st := if st.catalog.user_rooms.any (fun p => p.fst == old_username) then
          let rooms := alist_get st.catalog.user_rooms old_username []
          let ur := alist_erase (alist_set st.catalog.user_rooms new_username rooms) old_username
          let rus := rooms.foldl (fun m rn =>
              if (alist_get m rn []).contains old_username then
                alist_set m rn (set_add (set_discard (alist_get m rn []) old_username) new_username)
              else m) st.catalog.room_users
          { st with catalog := { st.catalog with user_rooms := ur, room_users := rus } }
        else st
      (st,
        [Out.send conn none (OutFrame.username_changed old_username new_username
          ("Username changed to " ++ new_username))]
        ++ ((alist_get st.catalog.user_rooms new_username []).map (fun rn =>
              broadcast_to_room st rn (some conn) (OutFrame.user_renamed old_username new_username
                (old_username ++ " changed username to " ++ new_username))
              ++ broadcast_room_users_list st rn)).flatten
        ++ broadcast_users_list st)

/-- ChatServer.handle_admin_command: plain comparison against the current
admin password; success flips the admin flag of the session. -/
def handle_admin_command (st : ServerState) (conn : Nat) (password : String) : ServerState × List Out :=
  match clients_get st conn with
  | none => (st, [])
  | some user_data =>
    if password == st.admin_password then
      let st := { st with clients := st.clients.map (fun p =>
        if p.fst == conn then (p.fst, { p.snd with is_admin := true }) else p) }
      (st, [Out.send conn none (OutFrame.admin_success "Admin privileges granted")]
        ++ broadcast_users_list st
        ++ ((get_user_rooms st.catalog user_data.username).map (fun rn => broadcast_room_users_list st rn)).flatten)
    else
      (st, [Out.send conn none (OutFrame.error "Invalid admin password")])

/-- ChatServer.handle_user_info_command (admin only): exact username lookup. -/
def handle_user_info_command (st : ServerState) (conn : Nat) (target_username : String) : ServerState × List Out :=
  match clients_get st conn with
  | none => (st, [])
  | some user_data =>
    if !user_data.is_admin then
      (st, [Out.send conn none (OutFrame.error "Admin privileges required")])
    else
      match st.clients.find? (fun p => p.snd.username == target_username) with
      | some pt =>
        (st, [Out.send conn none (OutFrame.user_info target_username pt.snd.username pt.snd.ip
          pt.snd.is_admin pt.snd.joined_at (get_user_rooms st.catalog pt.snd.username))])
      | none =>
        (st, [Out.send conn none (OutFrame.error ("User " ++ target_username ++ " not found"))])

/-- ChatServer.handle_kick_command (admin only): exact username lookup; the
target is told, its rooms are told, and its transport is closed. The session
itself is reaped later, by the disconnect of the closed connection. -/
def handle_kick_command (st : ServerState) (conn : Nat) (target_username : String) : ServerState × List Out :=
  match clients_get st conn with
  | none => (st, [])
  | some user_data =>
    if !user_data.is_admin then
      (st, [Out.send conn none (OutFrame.error "Admin privileges required")])
    else
      match st.clients.find? (fun p => p.snd.username == target_username) with
      | some pt =>
        (st, [Out.send pt.fst none (OutFrame.kicked ("You have been kicked by " ++ user_data.username))]
          ++ ((alist_get st.catalog.user_rooms pt.snd.username []).map (fun rn =>
                broadcast_to_room st rn (some pt.fst)
                  (OutFrame.user_kicked (pt.snd.username ++ " was kicked by " ++ user_data.username)))).flatten
          ++ [Out.close pt.fst])
      | none =>
        (st, [Out.send conn none (OutFrame.error ("User " ++ target_username ++ " not found"))])

/-- ChatServer.handle_ban_command (admin only): exact username lookup; adds
the target peer address to the ban set, tells and closes the target, tells
its rooms, and acknowledges to the admin. Only the matched session is
closed; its removal happens at the later disconnect of that connection. -/
def handle_ban_command (st : ServerState) (conn : Nat) (target_username : String) : ServerState × List Out :=
  match clients_get st conn with
  | none => (st, [])
  | some user_data =>
    if !user_data.is_admin then
      (st, [Out.send conn none (OutFrame.error "Admin privileges required")])
    else
      match st.clients.find? (fun p => p.snd.username == target_username) with
      | some pt =>
        let st := { st with banned_ips := set_add st.banned_ips pt.snd.ip }
        (st, [Out.send pt.fst none (OutFrame.banned ("You have been banned by " ++ user_data.username)),
              Out.close pt.fst]
          ++ ((alist_get st.catalog.user_rooms pt.snd.username []).map (fun rn =>
                broadcast_to_room st rn none
                  (OutFrame.user_banned (pt.snd.username ++ " was banned by " ++ user_data.username)))).flatten
          ++ [Out.send conn none (OutFrame.ban_success (target_username ++ " has been banned"))])
      | none =>
        (st, [Out.send conn none (OutFrame.error ("User " ++ target_username ++ " not found"))])

/-- ChatServer.handle_room_command: the slash commands join, left,
createroom, deleteroom. -/
def handle_room_command (st : ServerState) (conn : Nat) (command args : String) : ServerState × List Out :=
  match clients_get st conn with
  | none => (st, [])
  | some user_data =>
    let username := user_data.username
    let is_admin := user_data.is_admin
    if command == "join" then
      if args == "" then (st, [Out.send conn none (OutFrame.error "Usage: /join #room-name")])
      else
        let v := validate_room_name args
        if !v.fst then (st, [Out.send conn none (OutFrame.error ("Invalid room name: " ++ v.snd))])
        else
          let room_name := v.snd
          let jr := join_room st.catalog username room_name
          let st := { st with catalog := jr.snd }
          if jr.fst.fst then
            (st, [Out.send conn none (OutFrame.room_joined room_name jr.fst.snd)]
              ++ broadcast_to_room st room_name (some conn)
                  (OutFrame.user_joined_room username (username ++ " joined the room"))
              ++ broadcast_room_users_list st room_name)
          else (st, [Out.send conn none (OutFrame.error jr.fst.snd)])
    else if command == "left" then
      let current_rooms := get_user_rooms st.catalog username
      if current_rooms.length ≤ 1 then
        (st, [Out.send conn none (OutFrame.error "You are only in the main room and cannot leave it")])
      else
        match (current_rooms.filter (fun r => !(r == "main"))).head? with
        | none => (st, [])
        | some rtl =>
          let lr := leave_room st.catalog username rtl
          let st := { st with catalog := lr.snd }
          if lr.fst.fst then
            (st, [Out.send conn none (OutFrame.room_left rtl lr.fst.snd)]
              ++ broadcast_to_room st rtl none
                  (OutFrame.user_left_room username (username ++ " left the room"))
              ++ broadcast_room_users_list st rtl)
          else (st, [Out.send conn none (OutFrame.error lr.fst.snd)])
    else if command == "createroom" then
      if !is_admin then (st, [Out.send conn none (OutFrame.error "Admin privileges required to create rooms")])
      else if args == "" then (st, [Out.send conn none (OutFrame.error "Usage: /createroom room-name")])
      else
        let v := validate_room_name args
        if !v.fst then (st, [Out.send conn none (OutFrame.error ("Invalid room name: " ++ v.snd))])
        else
          let cr := create_room st.catalog.db v.snd username
          let st := { st with catalog := { st.catalog with db := cr.snd } }
          if cr.fst.fst then
            (st, [Out.send conn none (OutFrame.room_created cr.fst.snd)] ++ broadcast_rooms_list st)
          else
            (st, [Out.send conn none (OutFrame.error cr.fst.snd)])
    else if command == "deleteroom" then
      if !is_admin then (st, [Out.send conn none (OutFrame.error "Admin privileges required to delete rooms")])
      else if args == "" then (st, [Out.send conn none (OutFrame.error "Usage: /deleteroom room-name")])
      else
        let v := validate_room_name args
        if !v.fst then (st, [Out.send conn none (OutFrame.error ("Invalid room name: " ++ v.snd))])
        else
          let dr := delete_room st.catalog v.snd username
          let st := { st with catalog := dr.snd }
          if dr.fst.fst then
            (st, [Out.send conn none (OutFrame.room_deleted_ack dr.fst.snd)]
              ++ broadcast_to_room st v.snd none
                  (OutFrame.room_deleted v.snd ("Room " ++ v.snd ++ " has been deleted by " ++ username))
              ++ broadcast_rooms_list st)
          else
            (st, [Out.send conn none (OutFrame.error dr.fst.snd)])
    else (st, [])

/-- The tail of ChatServer.handle_message for room chat: the membership
check, the flood check, and the fan-out. -/
def room_chat (st : ServerState) (conn : Nat) (user_data : Session) (content target_room : String)
    (now : Nat) : ServerState × List Out :=
  if !((alist_get st.catalog.user_rooms user_data.username []).contains target_room) then
    (st, [Out.send conn none (OutFrame.error ("You are not in room " ++ target_room))])
  else
    let fl := check_flood_protection now (alist_get st.user_message_times user_data.username []) user_data.is_admin
    let st := if user_data.is_admin then st
      else { st with user_message_times := alist_set st.user_message_times user_data.username fl.snd }
    if fl.fst then
      (st, [Out.send conn none (OutFrame.error "Flood protection: You are sending messages too quickly. Please wait before sending more.")])
    else
      (st, broadcast_to_room st target_room none (OutFrame.message user_data.username content user_data.is_admin))

/-- ChatServer.handle_message: the dispatcher over message_type, then slash
commands, then room chat. -/
def handle_message (st : ServerState) (conn : Nat) (f : Frame) (now : Nat) : ServerState × List Out :=
  match clients_get st conn with
  | none => (st, [])
  | some user_data =>
    let content := pyStrip (opt_str f.content)
    let message_type := (f.message_type).getD ("text")
    let target_room := (f.room).getD ("main")
    if message_type == "ping" then handle_ping st conn now
    else if message_type == "register" then (st, [])
    else if message_type == "register_key" then
      if truthy f.public_key then handle_public_key_register st conn (opt_str f.public_key) else (st, [])
    else if message_type == "private" then
      if truthy f.recipient_username && truthy f.encrypted_content then
        let fl := check_flood_protection now (alist_get st.user_message_times user_data.username []) user_data.is_admin
        let st := if user_data.is_admin then st
          else { st with user_message_times := alist_set st.user_message_times user_data.username fl.snd }
        if fl.fst then
          (st, [Out.send conn none (OutFrame.error "Flood protection: You are sending messages too quickly. Please wait before sending more.")])
        else
          let pm := send_private_message st conn (opt_str f.recipient_username) (opt_str f.encrypted_content)
          if pm.fst then (st, pm.snd)
          else (st, pm.snd ++ [Out.send conn none (OutFrame.error "User not found or offline")])
      else (st, [])
    else if message_type == "get_rooms" then
      (st, [Out.send conn none (OutFrame.rooms_list (get_active_rooms st.catalog.db))])
    else if message_type == "get_room_users" then
      let room_name := (f.room_name).getD ("main")
      (st, [Out.send conn none (OutFrame.room_users_list room_name (get_room_users_detailed st room_name))])
    else if message_type == "join_room" then
      if truthy f.room_name then
        let rn := opt_str f.room_name
        let jr := join_room st.catalog user_data.username rn
        let st := { st with catalog := jr.snd }
        if jr.fst.fst then
          (st, [Out.send conn none (OutFrame.room_joined rn jr.fst.snd)]
            ++ broadcast_to_room st rn (some conn)
                (OutFrame.user_joined_room user_data.username (user_data.username ++ " joined the room"))
            ++ broadcast_room_users_list st rn)
        else (st, [Out.send conn none (OutFrame.error jr.fst.snd)])
      else (st, [])
    else if message_type == "leave_room" then
      if truthy f.room_name then
        let rn := opt_str f.room_name
        let lr := leave_room st.catalog user_data.username rn
        let st := { st with catalog := lr.snd }
        if lr.fst.fst then
          (st, [Out.send conn none (OutFrame.room_left rn lr.fst.snd)]
            ++ broadcast_to_room st rn none
                (OutFrame.user_left_room user_data.username (user_data.username ++ " left the room"))
            ++ broadcast_room_users_list st rn)
        else (st, [Out.send conn none (OutFrame.error lr.fst.snd)])
      else (st, [])
    else
      if content == "" then (st, [])
      else if pyStartsWith content '/' then
        let cp := splitFirstSpace (content.drop 1)
        let command := cp.fst
        let args := cp.snd
        if command == "join" || command == "left" || command == "createroom" || command == "deleteroom" then
          handle_room_command st conn command args
        else if command == "changeuname" then
          if args == "" then (st, [Out.send conn none (OutFrame.error "Usage: /changeuname <new_username>")])
          else handle_username_change st conn args
        else if command == "admin" then handle_admin_command st conn args
        else if command == "userinfo" then handle_user_info_command st conn args
        else if command == "kick" then handle_kick_command st conn args
        else if command == "ban" then handle_ban_command st conn args
        else if command == "help" then
          (st, [Out.send conn none (OutFrame.help "Commands: /admin <password>, /changeuname <new_username>, /kick <username>, /ban <username>, /userinfo <username>, /join #room-name, /left, /createroom <n> (admin), /deleteroom <n> (admin)")])
        else room_chat st conn user_data content target_room now
      else room_chat st conn user_data content target_room now

/-- An inbound transport message: a well-formed JSON frame or garbage. -/
inductive InMsg where
  | malformed
  | frame (f : Frame)
deriving DecidableEq

/-- Per-connection handler state: the peer address, whether the local
user_data of handle_client is set, and whether the handler has returned
(which closes the connection). -/
structure ConnState where
  ip : String
  has_user_data : Bool
  terminated : Bool
deriving DecidableEq

/-- The whole system: server state plus the live connection handlers. -/
structure SysState where
  server : ServerState
  conns : List (Nat × ConnState)
deriving DecidableEq

/-- An external event: a peer connects, a message arrives on a connection,
or a connection goes away (EOF, error, or an earlier close taking effect). -/
inductive Event where
  | connect (conn : Nat) (ip : String)
  | msg (conn : Nat) (m : InMsg)
  | disconnect (conn : Nat)
deriving DecidableEq

/-- The body of the message loop of ChatServer.handle_client for one inbound
message. Returns the server state, the outputs, the new user_data flag, and
whether the handler returned (ending the connection). -/
def handle_client_msg (st : ServerState) (conn : Nat) (ip : String) (has_user_data : Bool) (m : InMsg)
    (now : Nat) (nowIso : String) : ServerState × List Out × Bool × Bool :=
  match m with
  | InMsg.malformed =>
    (st, [Out.send conn none (OutFrame.error "Invalid message format")], has_user_data, false)
  | InMsg.frame f =>
    let message_type := (f.message_type).getD ("text")
    if message_type == "register" && !has_user_data then
      let custom := pyStrip (opt_str f.username)
      let r := register_client st conn ip (if custom != "" then some custom else none) now nowIso
      match r.fst with
      | some _ => (r.snd.fst, r.snd.snd, true, false)
      | none => (r.snd.fst, r.snd.snd, false, true)
    else if has_user_data then
      let hm := handle_message st conn f now
      (hm.fst, hm.snd, has_user_data, false)
    else
      (st, [Out.send conn none (OutFrame.error "Must register first")], false, false)

/-- One system step: connection admission, one handled message, or the
teardown that ChatServer.handle_client runs in its finally block. -/
def step (sys : SysState) (e : Event) (now : Nat) (nowIso : String) : SysState × List Out :=
  match e with
  | Event.connect conn ip =>
    ({ sys with conns := sys.conns ++ [(conn, { ip := ip, has_user_data := false, terminated := false })] }, [])
  | Event.msg conn m =>
    match sys.conns.find? (fun p => p.fst == conn) with
    | none => (sys, [])
    | some pc =>
      if pc.snd.terminated then (sys, [])
      else
        let r := handle_client_msg sys.server conn pc.snd.ip pc.snd.has_user_data m now nowIso
        ({ server := r.fst,
           conns := sys.conns.map (fun p => if p.fst == conn then
             (conn, { pc.snd with has_user_data := r.snd.snd.fst, terminated := r.snd.snd.snd }) else p) },
         r.snd.fst ++ (if r.snd.snd.snd then [Out.close conn] else []))
  | Event.disconnect conn =>
    match sys.conns.find? (fun p => p.fst == conn) with
    | none => (sys, [])
    | some pc =>
      let r := if pc.snd.has_user_data then unregister_client sys.server conn else (sys.server, [])
      ({ server := r.fst, conns := sys.conns.filter (fun p => !(p.fst == conn)) }, r.snd)

/-- Run a sequence of events, accumulating the outputs. -/
def run (sys : SysState) (events : List Event) (now : Nat) (nowIso : String) : SysState × List Out :=
  events.foldl (fun acc e =>
    let s := step acc.fst e now nowIso
    (s.fst, acc.snd ++ s.snd)) (sys, [])

/-- The system right after startup. -/
def initSys (pw : String) (banned : List String) : SysState :=
  { server := initServer pw banned, conns := [] }

/-- Every mutation of the room catalog that exists in the code base:
room creation and deletion (handle_room_command), join (join_room callers),
leave (leave_room callers), the membership-row rename of
handle_username_change, and the rehydration of register_client. No other
code path writes the rooms or user_rooms tables or the membership maps. -/
inductive CatalogOp where
  | create (room_name created_by : String)
  | delete (room_name actor : String)
  | join (username room_name : String)
  | leave (username room_name : String)
  | rename (old_username new_username : String)
  | load (username : String)
deriving DecidableEq

/-- Apply one catalog mutation, exactly as the handlers do. -/
def apply_op (c : Catalog) : CatalogOp → Catalog
  | CatalogOp.create n cb => { c with db := (create_room c.db n cb).snd }
  | CatalogOp.delete n a => (delete_room c n a).snd
  | CatalogOp.join u n => (join_room c u n).snd
  | CatalogOp.leave u n => (leave_room c u n).snd
  | CatalogOp.rename o n =>
    { c with db := { c.db with user_rooms := c.db.user_rooms.map (fun p => if p.fst == o then (n, p.snd) else p) } }
  | CatalogOp.load u => (load_user_rooms_from_db c u).snd

/-- The catalog as register_client finds it on a fresh server. -/
def initCatalog : Catalog := { db := initDB, user_rooms := [], room_users := [] }

/-- A catalog with the given database and empty in-memory maps. -/
def catalogOf (db : DB) : Catalog := { db := db, user_rooms := [], room_users := [] }

/-- A register frame carrying a chosen username. -/
def regF (u : String) : Frame := { message_type := some "register", username := some u }

/-- A plain text frame. -/
def txtF (c : String) : Frame := { content := some c }

/-- A private frame carrying a recipient and a ciphertext. -/
def privF (r e : String) : Frame :=
  { message_type := some "private", recipient_username := some r, encrypted_content := some e }

/-- A reachable single-user server: one registered session alice on
connection 1. -/
def stOneUser : ServerState :=
  (run (initSys "PW" []) [Event.connect 1 "8.8.8.8", Event.msg 1 (InMsg.frame (regF "alice"))] 1000 "t0").fst.server

/-- A reachable two-user server: alice on connection 1, bob on connection 2. -/
def stTwoUsers : ServerState :=
  (run (initSys "PW" []) [Event.connect 1 "8.8.8.8", Event.msg 1 (InMsg.frame (regF "alice")),
    Event.connect 2 "7.7.7.7", Event.msg 2 (InMsg.frame (regF "bob"))] 1000 "t0").fst.server

/-- A reachable server with an elevated session Admin1 on connection 1 and
a session registered with the mixed-case name Alice on connection 2. -/
def stAdminAlice : ServerState :=
  (run (initSys "PW" []) [Event.connect 1 "8.8.8.8", Event.msg 1 (InMsg.frame (regF "Admin1")),
    Event.msg 1 (InMsg.frame (txtF "/admin PW")),
    Event.connect 2 "7.7.7.7", Event.msg 2 (InMsg.frame (regF "Alice"))] 1000 "t0").fst.server

/-- The event trace behind the C3 counterexample: carol elevates herself,
alice and bob connect from the same address, carol bans alice, and the
closed connection of alice is reaped. -/
def banTrace : List Event :=
  [Event.connect 1 "9.9.9.9", Event.msg 1 (InMsg.frame (regF "carol")),
   Event.msg 1 (InMsg.frame (txtF "/admin PW")),
   Event.connect 2 "1.2.3.4", Event.msg 2 (InMsg.frame (regF "alice")),
   Event.connect 3 "1.2.3.4", Event.msg 3 (InMsg.frame (regF "bob")),
   Event.msg 1 (InMsg.frame (txtF "/ban alice")),
   Event.disconnect 2]

/-! Helper lemmas shared by several claims. -/

/-- Char.ofNat round-trips on valid scalar values. -/
theorem toNat_ofNat_valid (n : Nat) (h : n.isValidChar) : (Char.ofNat n).toNat = n := by
  simp [Char.ofNat, h, Char.ofNatAux, Char.toNat, UInt32.toNat, BitVec.toNat_ofNatLt]

/-- Characters are equal exactly when their scalar values are. -/
theorem char_eq_iff_toNat {c d : Char} : c = d ↔ c.toNat = d.toNat :=
  ⟨fun h => h ▸ rfl, fun h => Char.ext (UInt32.ext h)⟩

/-- The UInt32 order is definitionally the Nat order of the values. -/
theorem uint32_le_toNat (c d : UInt32) : (c ≤ d) ↔ c.toNat ≤ d.toNat := Iff.rfl

/-- The scalar value of a character, through the val projection. -/
theorem val_toNat (c : Char) : c.val.toNat = c.toNat := rfl

/-- The username character class as plain Nat ranges on the scalar value. -/
def UCond (c : Char) : Prop :=
  (97 ≤ c.toNat ∧ c.toNat ≤ 122) ∨ (65 ≤ c.toNat ∧ c.toNat ≤ 90) ∨
  (48 ≤ c.toNat ∧ c.toNat ≤ 57) ∨ c.toNat = 95 ∨ c.toNat = 45

/-- isUnameChar in terms of scalar-value ranges. -/
theorem isUnameChar_iff (c : Char) : isUnameChar c = true ↔ UCond c := by
  simp only [isUnameChar, Char.isAlpha, Char.isUpper, Char.isLower, Char.isDigit,
    Bool.or_eq_true, Bool.and_eq_true, decide_eq_true_eq, beq_iff_eq, char_eq_iff_toNat,
    ge_iff_le, uint32_le_toNat, val_toNat, UCond]
  simp only [show ('_' : Char).toNat = 95 from rfl, show ('-' : Char).toNat = 45 from rfl,
    show (65 : UInt32).toNat = 65 from rfl, show (90 : UInt32).toNat = 90 from rfl,
    show (97 : UInt32).toNat = 97 from rfl, show (122 : UInt32).toNat = 122 from rfl,
    show (48 : UInt32).toNat = 48 from rfl, show (57 : UInt32).toNat = 57 from rfl]
  omega

/-- The scalar value of Char.toLower: add 32 on uppercase ASCII, else fixed. -/
theorem toNat_toLower (c : Char) :
    c.toLower.toNat = if 65 ≤ c.toNat ∧ c.toNat ≤ 90 then c.toNat + 32 else c.toNat := by
  by_cases hc : 65 ≤ c.toNat ∧ c.toNat ≤ 90
  · rw [if_pos hc]
    show (if c.toNat ≥ 65 ∧ c.toNat ≤ 90 then Char.ofNat (c.toNat + 32) else c).toNat = c.toNat + 32
    rw [if_pos ⟨hc.1, hc.2⟩]
    exact toNat_ofNat_valid _ (Or.inl (by omega))
  · rw [if_neg hc]
    show (if c.toNat ≥ 65 ∧ c.toNat ≤ 90 then Char.ofNat (c.toNat + 32) else c).toNat = c.toNat
    rw [if_neg (fun hcon => hc ⟨hcon.1, hcon.2⟩)]

/-- A character whose case-folding agrees with a username-class character is
itself in the username class. -/
theorem valid_of_toLower_eq (c d : Char) (hd : isUnameChar d = true)
    (h : c.toLower = d.toLower) : isUnameChar c = true := by
  have hn : c.toLower.toNat = d.toLower.toNat := by rw [h]
  rw [toNat_toLower, toNat_toLower] at hn
  have hd2 := (isUnameChar_iff d).mp hd
  apply (isUnameChar_iff c).mpr
  unfold UCond at hd2 ⊢
  rcases Decidable.em (65 ≤ c.toNat ∧ c.toNat ≤ 90) with hc | hc
  · right; left; exact hc
  · rw [if_neg hc] at hn
    rcases Decidable.em (65 ≤ d.toNat ∧ d.toNat ≤ 90) with hdn | hdn
    · rw [if_pos hdn] at hn; omega
    · rw [if_neg hdn] at hn; omega

/-- Lists that case-fold equal and one of which is entirely in the username
class are both entirely in the username class. -/
theorem all_uname_of_map_toLower_eq (a b : List Char) (hb : b.all isUnameChar = true)
    (h : a.map Char.toLower = b.map Char.toLower) : a.all isUnameChar = true := by
  induction a generalizing b with
  | nil => rfl
  | cons c a ih =>
    cases b with
    | nil => simp at h
    | cons d b =>
      simp only [List.map_cons, List.cons.injEq] at h
      simp only [List.all_cons, Bool.and_eq_true] at hb ⊢
      exact ⟨valid_of_toLower_eq c d hb.1 h.1, ih b hb.2 h.2⟩

/-- On a sorted window the front-popping loop removes exactly the entries
strictly older than 60 seconds. -/
theorem trim_window_eq_filter (now : Nat) (w : List Nat) (hw : List.Sorted (fun a b => a ≤ b) w) :
    trim_window now w = w.filter (fun x => decide (now - x ≤ 60)) := by
  induction w with
  | nil => rfl
  | cons t rest ih =>
    rw [List.sorted_cons] at hw
    by_cases h : now - t > 60
    · have hf : (decide (now - t ≤ 60)) = false := by simp; omega
      simp only [trim_window, if_pos h, List.filter_cons, hf, Bool.false_eq_true, if_false]
      exact ih hw.2
    · have hf : (decide (now - t ≤ 60)) = true := by simp; omega
      simp only [trim_window, if_neg h, List.filter_cons, hf, if_true]
      congr 1
      rw [Eq.comm, List.filter_eq_self]
      intro x hx
      have := hw.1 x hx
      simp; omega

/-! Claim C1: flood protection. -/

/-- C1: for a non-admin the flood check first drops the window entries
strictly older than 60 seconds (the front-popping loop equals that filter on
the sorted windows the server builds), then rejects exactly when at least 30
entries remain; the current time is appended only on acceptance, and a
rejected frame leaves the trimmed window without the new timestamp. For an
admin the check always accepts and returns the window untouched. -/
theorem flood_check_correct (now : Nat) (w : List Nat)
    (hw : List.Sorted (fun a b => a ≤ b) w) :
    check_flood_protection now w true = (false, w) ∧
    ((check_flood_protection now w false).fst = true ↔
      30 ≤ (w.filter (fun x => decide (now - x ≤ 60))).length) ∧
    check_flood_protection now w false =
      (if 30 ≤ (w.filter (fun x => decide (now - x ≤ 60))).length
       then (true, w.filter (fun x => decide (now - x ≤ 60)))
       else (false, w.filter (fun x => decide (now - x ≤ 60)) ++ [now])) := by
  have ht := trim_window_eq_filter now w hw
  refine ⟨rfl, ?_, ?_⟩
  · simp only [check_flood_protection, Bool.false_eq_true, if_false, ht, ge_iff_le]
    split
    · next h => exact iff_of_true rfl h
    · next h => exact iff_of_false (by simp) h
  · simp only [check_flood_protection, Bool.false_eq_true, if_false, ht, ge_iff_le]

/-- Witness for flood_check_correct: now 100, sorted window 10, 50, 90; the
entry 10 is dropped, the count 2 is below 30, and 100 is appended. -/
theorem flood_check_correct_witness :
    check_flood_protection 100 [10, 50, 90] true = (false, [10, 50, 90]) ∧
    check_flood_protection 100 [10, 50, 90] false = (false, [50, 90, 100]) := by
  have h := flood_check_correct 100 [10, 50, 90] (by decide)
  refine ⟨h.1, ?_⟩
  rw [h.2.2]
  decide

/-! Claim C7: the main room is permanent. -/

/-- Creating a room can only extend the rooms table, so main stays active. -/
theorem main_active_create (db : DB) (n cb : String) (h : room_active db ("main") = true) :
    room_active (create_room db n cb).snd ("main") = true := by
  unfold create_room
  split
  · exact h
  · simp only [room_active, List.any_append] at h ⊢
    simp [room_active] at h
    simp [h]

/-- Deleting a room refuses main and only deactivates rows of the named
room, so main stays active. -/
theorem main_active_delete (c : Catalog) (n a : String) (h : room_active c.db ("main") = true) :
    room_active (delete_room c n a).snd.db ("main") = true := by
  unfold delete_room
  split
  · next => exact h
  · next hne =>
    split
    · exact h
    · simp only [room_active, List.any_map, List.any_eq_true] at h ⊢
      obtain ⟨r, hr, hcond⟩ := h
      simp only [Bool.and_eq_true, beq_iff_eq] at hcond
      have hnm : ¬ (n = "main") := fun hx => hne (by simp [hx])
      have hbeq : (r.name == n) = false := by
        simp only [beq_eq_false_iff_ne, ne_eq, hcond.1]
        exact fun hx => hnm hx.symm
      refine ⟨r, hr, ?_⟩
      simp only [Function.comp, hbeq, Bool.false_eq_true, if_false, Bool.and_eq_true, beq_iff_eq]
      exact ⟨hcond.1, hcond.2⟩

/-- Joining a room never writes the rooms table. -/
theorem main_active_join (c : Catalog) (u n : String) (h : room_active c.db ("main") = true) :
    room_active (join_room c u n).snd.db ("main") = true := by
  unfold join_room
  split
  · exact h
  · split <;> exact h

/-- Leaving a room never writes the rooms table. -/
theorem main_active_leave (c : Catalog) (u n : String) (h : room_active c.db ("main") = true) :
    room_active (leave_room c u n).snd.db ("main") = true := by
  unfold leave_room
  split <;> exact h

/-- Every catalog mutation in the code preserves an active main room. -/
theorem main_active_op (c : Catalog) (op : CatalogOp) (h : room_active c.db ("main") = true) :
    room_active (apply_op c op).db ("main") = true := by
  cases op with
  | create n cb => exact main_active_create c.db n cb h
  | delete n a => exact main_active_delete c n a h
  | join u n => exact main_active_join c u n h
  | leave u n => exact main_active_leave c u n h
  | rename o n => exact h
  | load u => exact h

/-- An active main room is preserved by any sequence of catalog mutations. -/
theorem main_active_foldl (ops : List CatalogOp) (c : Catalog) (h : room_active c.db ("main") = true) :
    room_active ((ops.foldl apply_op c).db) ("main") = true := by
  induction ops generalizing c with
  | nil => exact h
  | cons op ops ih => exact ih _ (main_active_op c op h)

/-- C7: deleting main fails with an error and changes nothing, leaving main
fails with an error and changes nothing, and along every sequence of the
catalog mutations that exist in the code, starting from the seeded catalog,
the rooms table contains main with is_active true. -/
theorem main_room_permanent :
    (∀ (c : Catalog) (actor : String),
      delete_room c ("main") actor = ((false, "Cannot delete the main room"), c)) ∧
    (∀ (c : Catalog) (user : String),
      leave_room c user ("main") = ((false, "Cannot leave the main room"), c)) ∧
    (∀ ops : List CatalogOp, room_active ((ops.foldl apply_op initCatalog).db) ("main") = true) := by
  refine ⟨?_, ?_, ?_⟩
  · intro c actor; rfl
  · intro c user; rfl
  · intro ops; exact main_active_foldl ops initCatalog (by decide)

/-! Claim C8: room names are never freed, even by soft deletion. -/

/-- After a successful delete_room the name still occupies a row of the
rooms table (the row is only deactivated). -/
theorem room_exists_after_delete (c : Catalog) (n a : String)
    (hdel : (delete_room c n a).fst.fst = true) :
    room_exists_any (delete_room c n a).snd.db n = true := by
  unfold delete_room at hdel ⊢
  split at hdel
  · next h => simp at hdel
  · next h =>
    split at hdel
    · next h2 => simp at hdel
    · next h2 =>
      rw [if_neg h, if_neg h2]
      have hact : room_active c.db n = true := by simpa using h2
      simp only [room_active, List.any_eq_true] at hact
      obtain ⟨r, hr, hcond⟩ := hact
      simp only [Bool.and_eq_true] at hcond
      simp only [room_exists_any, List.any_map, List.any_eq_true, Function.comp]
      refine ⟨r, hr, ?_⟩
      rw [if_pos hcond.1]
      simpa using hcond.1

/-- C8: create_room reports the already-exists conflict exactly when the
name occupies any row of the rooms table, and a successful deletion keeps
the row (merely inactive), so the deleted name still collides with a later
create. -/
theorem create_room_conflict :
    (∀ (db : DB) (n cb : String),
      ((create_room db n cb).fst = (false, "Room \x27" ++ n ++ "\x27 already exists")) ↔
        room_exists_any db n = true) ∧
    (∀ (c : Catalog) (n a cb : String), (delete_room c n a).fst.fst = true →
      (create_room (delete_room c n a).snd.db n cb).fst =
        (false, "Room \x27" ++ n ++ "\x27 already exists")) := by
  constructor
  · intro db n cb
    unfold create_room
    split
    · next h => exact iff_of_true rfl h
    · next h =>
      constructor
      · intro hx; simp at hx
      · intro hx; exact absurd hx h
  · intro c n a cb hdel
    have hex := room_exists_after_delete c n a hdel
    unfold create_room
    rw [if_pos hex]

/-- Witness for create_room_conflict: deleting the freshly created lounge
room succeeds, and creating lounge again afterwards reports the conflict. -/
theorem create_room_conflict_witness :
    ((create_room initDB "lounge" "adm").fst = (false, "Room \x27lounge\x27 already exists") ↔
      room_exists_any initDB "lounge" = true) ∧
    (create_room (delete_room (catalogOf (create_room initDB "lounge" "adm").snd)
        "lounge" "adm").snd.db "lounge" "adm").fst =
      (false, "Room \x27lounge\x27 already exists") := by
  constructor
  · exact create_room_conflict.1 initDB "lounge" "adm"
  · exact create_room_conflict.2 (catalogOf (create_room initDB "lounge" "adm").snd)
      "lounge" "adm" "adm" (by decide)

/-! Claim C2: gating of the register frame. -/

/-- A register-typed frame reaching the dispatcher of a registered session
returns immediately: no reply, no state change. -/
theorem hm_register (st : ServerState) (conn : Nat) (f : Frame) (now : Nat)
    (hreg : (f.message_type).getD ("text") = "register") :
    handle_message st conn f now = (st, []) := by
  unfold handle_message
  cases hcg : clients_get st conn with
  | none => rfl
  | some ud => simp [hreg]

/-- A non-register frame before registration earns the must-register error
and changes nothing. -/
theorem hcm_error (st : ServerState) (conn : Nat) (ip : String) (g : Frame) (now : Nat) (iso : String)
    (h : (g.message_type).getD ("text") ≠ "register") :
    handle_client_msg st conn ip false (InMsg.frame g) now iso =
      (st, [Out.send conn none (OutFrame.error "Must register first")], false, false) := by
  unfold handle_client_msg
  simp [h]

/-- A register frame on an already registered connection is routed to the
dispatcher, which ignores it. -/
theorem hcm_registered_register (st : ServerState) (conn : Nat) (ip : String) (f : Frame) (now : Nat) (iso : String)
    (hreg : (f.message_type).getD ("text") = "register") :
    handle_client_msg st conn ip true (InMsg.frame f) now iso = (st, [], true, false) := by
  unfold handle_client_msg
  simp [hreg, hm_register st conn f now hreg]

/-- C2 counterexample: register is NOT accepted only as the first
successfully parsed frame. On a fresh connection the first parsed frame is
a plain text frame, answered with the must-register error, and the register
frame arriving second is still accepted and creates the session. -/
theorem register_not_first_frame_cex :
    ((run (initSys "PW" []) [Event.connect 1 "8.8.8.8",
        Event.msg 1 (InMsg.frame (txtF "hi")),
        Event.msg 1 (InMsg.frame (regF "alice"))] 1000 "t0").snd.head? =
      some (Out.send 1 none (OutFrame.error "Must register first"))) ∧
    ((run (initSys "PW" []) [Event.connect 1 "8.8.8.8",
        Event.msg 1 (InMsg.frame (txtF "hi")),
        Event.msg 1 (InMsg.frame (regF "alice"))] 1000 "t0").fst.server.clients.map
        (fun p => (p.fst, p.snd.username)) = [(1, "alice")]) := by
  exact ⟨rfl, rfl⟩

/-- C2 amended: a register frame is accepted only while the connection has
no session (not necessarily as the first frame): any non-register frame
before registration yields one must-register error and creates no state, a
register frame reaching a registered dispatcher is ignored with no reply
and no state change, and on a registered connection the register frame
leaves the handler registered with no output. -/
theorem register_gating :
    (∀ (st : ServerState) (conn : Nat) (ip : String) (g : Frame) (now : Nat) (iso : String),
      (g.message_type).getD ("text") ≠ "register" →
      handle_client_msg st conn ip false (InMsg.frame g) now iso =
        (st, [Out.send conn none (OutFrame.error "Must register first")], false, false)) ∧
    (∀ (st : ServerState) (conn : Nat) (f : Frame) (now : Nat),
      (f.message_type).getD ("text") = "register" →
      handle_message st conn f now = (st, [])) ∧
    (∀ (st : ServerState) (conn : Nat) (ip : String) (f : Frame) (now : Nat) (iso : String),
      (f.message_type).getD ("text") = "register" →
      handle_client_msg st conn ip true (InMsg.frame f) now iso = (st, [], true, false)) :=
  ⟨hcm_error, hm_register, hcm_registered_register⟩

/-- Witness for register_gating on the reachable one-user server. -/
theorem register_gating_witness :
    handle_client_msg stOneUser 1 "8.8.8.8" false (InMsg.frame (txtF "hi")) 1000 "t0" =
      (stOneUser, [Out.send 1 none (OutFrame.error "Must register first")], false, false) ∧
    handle_message stOneUser 1 (regF "bob") 1000 = (stOneUser, []) ∧
    handle_client_msg stOneUser 1 "8.8.8.8" true (InMsg.frame (regF "bob")) 1000 "t0" =
      (stOneUser, [], true, false) :=
  ⟨register_gating.1 stOneUser 1 "8.8.8.8" (txtF "hi") 1000 "t0" (by decide),
   register_gating.2.1 stOneUser 1 (regF "bob") 1000 (by decide),
   register_gating.2.2 stOneUser 1 "8.8.8.8" (regF "bob") 1000 "t0" (by decide)⟩

/-! Claim C3: bans versus live sessions. -/

/-- A connection attempt from a banned address is turned away with a single
error before any session state is touched. -/
theorem register_banned (st : ServerState) (conn : Nat) (ip : String) (cu : Option String)
    (now : Nat) (iso : String) (h : st.banned_ips.contains ip = true) :
    register_client st conn ip cu now iso =
      (none, st, [Out.send conn none (OutFrame.error "You are banned from this server")]) := by
  unfold register_client
  rw [if_pos h]

/-- The ban command bans the address of the first session matching the
target name and closes only that connection; every session record,
including other sessions from the same address, is still present right
after the command. -/
theorem ban_hits_one_connection (st : ServerState) (conn : Nat) (ud : Session) (target : String)
    (pt : Nat × Session)
    (hc : clients_get st conn = some ud) (ha : ud.is_admin = true)
    (hf : st.clients.find? (fun p => p.snd.username == target) = some pt) :
    (handle_ban_command st conn target).fst =
      { st with banned_ips := set_add st.banned_ips pt.snd.ip } ∧
    Out.close pt.fst ∈ (handle_ban_command st conn target).snd ∧
    (handle_ban_command st conn target).fst.clients = st.clients := by
  unfold handle_ban_command
  rw [hc]
  simp only [ha, Bool.not_true, Bool.false_eq_true, if_false, hf]
  exact ⟨trivial, by simp, trivial⟩

/-- C3 counterexample: a reachable state in which a live session sits on a
banned peer address. From startup: carol registers and elevates herself,
alice and bob register from the same address 1.2.3.4, carol runs /ban
alice, and the closed connection of alice is reaped. The address 1.2.3.4
is now in the ban store while the session of bob, with that same peer
address, is still live. -/
theorem banned_ip_live_session_cex :
    ((run (initSys "PW" []) banTrace 1000 "t0").fst.server.banned_ips = ["1.2.3.4"]) ∧
    ((run (initSys "PW" []) banTrace 1000 "t0").fst.server.clients.map
        (fun p => (p.fst, p.snd.username, p.snd.ip)) =
      [(1, "carol", "9.9.9.9"), (3, "bob", "1.2.3.4")]) := by
  exact ⟨rfl, rfl⟩

/-- C3 amended: a connection attempt from a banned address is rejected with
a single error frame before any session is created; /ban on a user adds the
address of the first matching session to the ban store and closes only that
connection (the session table is untouched until the closed connection is
reaped), so other live sessions sharing the banned address remain. -/
theorem ban_semantics :
    (∀ (st : ServerState) (conn : Nat) (ip : String) (cu : Option String) (now : Nat) (iso : String),
      st.banned_ips.contains ip = true →
      register_client st conn ip cu now iso =
        (none, st, [Out.send conn none (OutFrame.error "You are banned from this server")])) ∧
    (∀ (st : ServerState) (conn : Nat) (ud : Session) (target : String) (pt : Nat × Session),
      clients_get st conn = some ud → ud.is_admin = true →
      st.clients.find? (fun p => p.snd.username == target) = some pt →
      (handle_ban_command st conn target).fst =
        { st with banned_ips := set_add st.banned_ips pt.snd.ip } ∧
      Out.close pt.fst ∈ (handle_ban_command st conn target).snd ∧
      (handle_ban_command st conn target).fst.clients = st.clients) :=
  ⟨register_banned, ban_hits_one_connection⟩

/-- Witness for ban_semantics: a server that lists 1.2.3.4 as banned turns
that peer away, and on the reachable admin server the ban of Alice bans her
address and closes her connection 2 while the session table is unchanged. -/
theorem ban_semantics_witness :
    register_client (initServer "PW" ["1.2.3.4"]) 7 "1.2.3.4" none 1000 "t0" =
      (none, initServer "PW" ["1.2.3.4"],
        [Out.send 7 none (OutFrame.error "You are banned from this server")]) ∧
    ((handle_ban_command stAdminAlice 1 "Alice").fst =
      { stAdminAlice with banned_ips := set_add stAdminAlice.banned_ips "7.7.7.7" } ∧
     Out.close 2 ∈ (handle_ban_command stAdminAlice 1 "Alice").snd ∧
     (handle_ban_command stAdminAlice 1 "Alice").fst.clients = stAdminAlice.clients) := by
  constructor
  · exact ban_semantics.1 (initServer "PW" ["1.2.3.4"]) 7 "1.2.3.4" none 1000 "t0" (by decide)
  · exact ban_semantics.2 stAdminAlice 1
      { username := "Admin1", ip := "8.8.8.8", is_admin := true, joined_at := "t0", last_ping := 1000 }
      "Alice"
      (2, { username := "Alice", ip := "7.7.7.7", is_admin := false, joined_at := "t0", last_ping := 1000 })
      (by decide) (by decide) (by decide)

/-! Claim C5: silent drops in the dispatcher. -/

/-- A default-typed frame whose stripped content is empty is dropped with no
reply and no state change. -/
theorem hm_empty_content (st : ServerState) (conn : Nat) (ud : Session) (f : Frame) (now : Nat)
    (hc : clients_get st conn = some ud)
    (hmt : (f.message_type).getD ("text") = "text")
    (hcont : pyStrip (opt_str f.content) = "") :
    handle_message st conn f now = (st, []) := by
  unfold handle_message
  rw [hc]
  simp [hmt, hcont]

/-- A private frame missing (or carrying an empty) recipient_username or
encrypted_content is dropped with no reply and no state change. -/
theorem hm_private_missing (st : ServerState) (conn : Nat) (ud : Session) (f : Frame) (now : Nat)
    (hc : clients_get st conn = some ud)
    (hmt : (f.message_type).getD ("text") = "private")
    (hmiss : (truthy f.recipient_username && truthy f.encrypted_content) = false) :
    handle_message st conn f now = (st, []) := by
  unfold handle_message
  rw [hc]
  simp [hmt, hmiss]

/-- A join_room frame without a room_name is dropped with no reply and no
state change. -/
theorem hm_join_room_missing (st : ServerState) (conn : Nat) (ud : Session) (f : Frame) (now : Nat)
    (hc : clients_get st conn = some ud)
    (hmt : (f.message_type).getD ("text") = "join_room")
    (hmiss : truthy f.room_name = false) :
    handle_message st conn f now = (st, []) := by
  unfold handle_message
  rw [hc]
  simp [hmt, hmiss]

/-- A chat into a room the sender is not a member of is answered with
exactly one error frame. -/
theorem hm_not_in_room (st : ServerState) (conn : Nat) (ud : Session) (f : Frame) (now : Nat)
    (hc : clients_get st conn = some ud)
    (hmt : (f.message_type).getD ("text") = "text")
    (hcont : pyStrip (opt_str f.content) ≠ "")
    (hsl : pyStartsWith (pyStrip (opt_str f.content)) '/' = false)
    (hmem : (alist_get st.catalog.user_rooms ud.username []).contains ((f.room).getD ("main")) = false) :
    handle_message st conn f now =
      (st, [Out.send conn none (OutFrame.error ("You are not in room " ++ (f.room).getD ("main")))]) := by
  unfold handle_message
  rw [hc]
  simp [hmt, hcont, hsl, room_chat, hmem]
  intro hmem3
  exact absurd hmem3 (by simpa using hmem)

/-- C5 counterexample: on a reachable one-user server the three frame
shapes that the claim says must elicit an error frame are all silently
ignored: no output at all and no state change. -/
theorem silent_drop_cex :
    handle_message stOneUser 1 { content := some "" } 1000 = (stOneUser, []) ∧
    handle_message stOneUser 1 { message_type := some "private", recipient_username := some "bob" } 1000 =
      (stOneUser, []) ∧
    handle_message stOneUser 1 { message_type := some "join_room" } 1000 = (stOneUser, []) := by
  refine ⟨?_, ?_, ?_⟩ <;> rfl

/-- C5 amended: most rejections are answered with exactly one error frame
(for example a chat into a room the sender is not in), but a text frame
with empty stripped content, a private frame missing recipient_username or
encrypted_content, and a join_room frame missing room_name are silently
ignored: the dispatcher returns with no reply and no state change. -/
theorem rejected_frames_replies :
    (∀ (st : ServerState) (conn : Nat) (ud : Session) (f : Frame) (now : Nat),
      clients_get st conn = some ud →
      (f.message_type).getD ("text") = "text" → pyStrip (opt_str f.content) = "" →
      handle_message st conn f now = (st, [])) ∧
    (∀ (st : ServerState) (conn : Nat) (ud : Session) (f : Frame) (now : Nat),
      clients_get st conn = some ud →
      (f.message_type).getD ("text") = "private" →
      (truthy f.recipient_username && truthy f.encrypted_content) = false →
      handle_message st conn f now = (st, [])) ∧
    (∀ (st : ServerState) (conn : Nat) (ud : Session) (f : Frame) (now : Nat),
      clients_get st conn = some ud →
      (f.message_type).getD ("text") = "join_room" → truthy f.room_name = false →
      handle_message st conn f now = (st, [])) ∧
    (∀ (st : ServerState) (conn : Nat) (ud : Session) (f : Frame) (now : Nat),
      clients_get st conn = some ud →
      (f.message_type).getD ("text") = "text" →
      pyStrip (opt_str f.content) ≠ "" →
      pyStartsWith (pyStrip (opt_str f.content)) '/' = false →
      (alist_get st.catalog.user_rooms ud.username []).contains ((f.room).getD ("main")) = false →
      handle_message st conn f now =
        (st, [Out.send conn none (OutFrame.error ("You are not in room " ++ (f.room).getD ("main")))])) :=
  ⟨hm_empty_content, hm_private_missing, hm_join_room_missing, hm_not_in_room⟩

/-- Witness for rejected_frames_replies on the reachable one-user server. -/
theorem rejected_frames_replies_witness :
    handle_message stOneUser 1 { content := some " " } 1000 = (stOneUser, []) ∧
    handle_message stOneUser 1 { message_type := some "private", encrypted_content := some "xx" } 1000 =
      (stOneUser, []) ∧
    handle_message stOneUser 1 { message_type := some "join_room", room_name := some "" } 1000 =
      (stOneUser, []) ∧
    handle_message stOneUser 1 { content := some "hello", room := some "lounge" } 1000 =
      (stOneUser, [Out.send 1 none (OutFrame.error "You are not in room lounge")]) := by
  refine ⟨?_, ?_, ?_, ?_⟩
  · exact rejected_frames_replies.1 stOneUser 1
      { username := "alice", ip := "8.8.8.8", is_admin := false, joined_at := "t0", last_ping := 1000 }
      { content := some " " } 1000 (by decide) (by decide) (by decide)
  · exact rejected_frames_replies.2.1 stOneUser 1
      { username := "alice", ip := "8.8.8.8", is_admin := false, joined_at := "t0", last_ping := 1000 }
      { message_type := some "private", encrypted_content := some "xx" } 1000 (by decide) (by decide) (by decide)
  · exact rejected_frames_replies.2.2.1 stOneUser 1
      { username := "alice", ip := "8.8.8.8", is_admin := false, joined_at := "t0", last_ping := 1000 }
      { message_type := some "join_room", room_name := some "" } 1000 (by decide) (by decide) (by decide)
  · exact rejected_frames_replies.2.2.2 stOneUser 1
      { username := "alice", ip := "8.8.8.8", is_admin := false, joined_at := "t0", last_ping := 1000 }
      { content := some "hello", room := some "lounge" } 1000 (by decide) (by decide) (by decide) (by decide) (by decide)

/-! Claim C6: error propagation and the connection. -/

/-- A malformed frame is answered with one error and the connection stays. -/
theorem hcm_malformed (st : ServerState) (conn : Nat) (ip : String) (hud : Bool) (now : Nat) (iso : String) :
    handle_client_msg st conn ip hud InMsg.malformed now iso =
      (st, [Out.send conn none (OutFrame.error "Invalid message format")], hud, false) := rfl

/-- On a registered connection the handler never terminates itself, whatever
the frame: every rejection is surfaced as frames only. -/
theorem hcm_registered_keeps (st : ServerState) (conn : Nat) (ip : String) (f : Frame) (now : Nat) (iso : String) :
    (handle_client_msg st conn ip true (InMsg.frame f) now iso).snd.snd.snd = false := by
  unfold handle_client_msg
  simp

/-- A register frame whose chosen username fails validation is answered with
one error frame and then the handler returns, closing the connection. -/
theorem hcm_reg_fail (st : ServerState) (conn : Nat) (ip : String) (f : Frame) (u : String)
    (now : Nat) (iso : String)
    (hreg : (f.message_type).getD ("text") = "register")
    (hu : pyStrip (opt_str f.username) = u) (hne : u ≠ "")
    (hban : st.banned_ips.contains ip = false)
    (hv : (validate_username st.usernames u).fst = false) :
    handle_client_msg st conn ip false (InMsg.frame f) now iso =
      (st, [Out.send conn none (OutFrame.error ("Invalid username: " ++ (validate_username st.usernames u).snd))],
       false, true) := by
  unfold handle_client_msg
  simp only [hreg, hu]
  rw [if_pos (by simp [hne])]
  unfold register_client
  rw [if_neg (show ¬ (st.banned_ips.contains ip = true) by rw [hban]; simp)]
  rcases hval : validate_username st.usernames u with ⟨vb, vs⟩
  rw [hval] at hv
  simp at hv
  subst hv
  simp [hne, hval]

/-- C6 counterexample: after a register frame with the invalid username a
the server sends one error frame and then CLOSES the connection: the
handler has returned, and the well-formed retry register frame for alice
that follows is never processed, so no session exists. -/
theorem register_error_closes_cex :
    ((run (initSys "PW" []) [Event.connect 1 "8.8.8.8", Event.msg 1 (InMsg.frame (regF "a")),
        Event.msg 1 (InMsg.frame (regF "alice"))] 1000 "t0").snd =
      [Out.send 1 none (OutFrame.error "Invalid username: Username must be between 2 and 20 characters"),
       Out.close 1]) ∧
    ((run (initSys "PW" []) [Event.connect 1 "8.8.8.8", Event.msg 1 (InMsg.frame (regF "a")),
        Event.msg 1 (InMsg.frame (regF "alice"))] 1000 "t0").fst.server.clients = []) := by
  exact ⟨rfl, rfl⟩

/-- C6 amended: parse errors and every rejection on a registered connection
are surfaced as a single error frame with the connection kept, but a
register frame carrying an invalid username is answered with one error and
the connection is then closed, so the peer cannot retry on it. -/
theorem error_propagation :
    (∀ (st : ServerState) (conn : Nat) (ip : String) (hud : Bool) (now : Nat) (iso : String),
      handle_client_msg st conn ip hud InMsg.malformed now iso =
        (st, [Out.send conn none (OutFrame.error "Invalid message format")], hud, false)) ∧
    (∀ (st : ServerState) (conn : Nat) (ip : String) (f : Frame) (now : Nat) (iso : String),
      (handle_client_msg st conn ip true (InMsg.frame f) now iso).snd.snd.snd = false) ∧
    (∀ (st : ServerState) (conn : Nat) (ip : String) (f : Frame) (u : String) (now : Nat) (iso : String),
      (f.message_type).getD ("text") = "register" →
      pyStrip (opt_str f.username) = u → u ≠ "" →
      st.banned_ips.contains ip = false →
      (validate_username st.usernames u).fst = false →
      handle_client_msg st conn ip false (InMsg.frame f) now iso =
        (st, [Out.send conn none (OutFrame.error ("Invalid username: " ++ (validate_username st.usernames u).snd))],
         false, true)) :=
  ⟨hcm_malformed, hcm_registered_keeps, hcm_reg_fail⟩

/-- Witness for error_propagation on concrete states. -/
theorem error_propagation_witness :
    handle_client_msg stOneUser 1 "8.8.8.8" true InMsg.malformed 1000 "t0" =
      (stOneUser, [Out.send 1 none (OutFrame.error "Invalid message format")], true, false) ∧
    (handle_client_msg stOneUser 1 "8.8.8.8" true (InMsg.frame (txtF "/admin wrong")) 1000 "t0").snd.snd.snd = false ∧
    handle_client_msg (initServer "PW" []) 5 "6.6.6.6" false (InMsg.frame (regF "a")) 1000 "t0" =
      (initServer "PW" [],
       [Out.send 5 none (OutFrame.error ("Invalid username: " ++ (validate_username (initServer "PW" []).usernames "a").snd))],
       false, true) :=
  ⟨error_propagation.1 stOneUser 1 "8.8.8.8" true 1000 "t0",
   error_propagation.2.1 stOneUser 1 "8.8.8.8" (txtF "/admin wrong") 1000 "t0",
   error_propagation.2.2 (initServer "PW" []) 5 "6.6.6.6" (regF "a") "a" 1000 "t0"
     (by decide) (by decide) (by decide) (by decide) (by decide)⟩

/-! Claim C4: private message routing. -/

/-- C4: a private frame from a registered sender that passes the flood
check is delivered to at most one live session: exactly the first client
whose username equals the recipient name, with the opaque ciphertext,
regardless of room membership (no room is consulted); and when no live
session carries that username the sender receives the single
User-not-found-or-offline error, and only then. -/
theorem private_message_routing (st : ServerState) (conn : Nat) (ud : Session) (f : Frame) (now : Nat)
    (hc : clients_get st conn = some ud)
    (hmt : (f.message_type).getD ("text") = "private")
    (hr : truthy f.recipient_username = true)
    (he : truthy f.encrypted_content = true)
    (hflood : (check_flood_protection now (alist_get st.user_message_times ud.username []) ud.is_admin).fst = false) :
    (∃ pr : Nat × Session,
      st.clients.find? (fun p => p.snd.username == opt_str f.recipient_username) = some pr ∧
      pr.snd.username = opt_str f.recipient_username ∧
      (handle_message st conn f now).snd =
        [Out.send pr.fst none (OutFrame.private_message ud.username (opt_str f.encrypted_content) ud.is_admin)]) ∨
    ((∀ p ∈ st.clients, p.snd.username ≠ opt_str f.recipient_username) ∧
      (handle_message st conn f now).snd =
        [Out.send conn none (OutFrame.error "User not found or offline")]) := by
  obtain ⟨pc, hcc, hpc⟩ :
      ∃ pc : Nat × Session, st.clients.find? (fun p => p.fst == conn) = some pc ∧ pc.snd = ud := by
    unfold clients_get at hc
    cases hx : st.clients.find? (fun p => p.fst == conn) with
    | none => rw [hx] at hc; cases hc
    | some pc => rw [hx] at hc; exact ⟨pc, rfl, by injection hc⟩
  unfold handle_message
  rw [hc]
  cases hf : st.clients.find? (fun p => p.snd.username == opt_str f.recipient_username) with
  | some pr =>
    left
    refine ⟨pr, rfl, by simpa using List.find?_some hf, ?_⟩
    by_cases hadm : ud.is_admin = true
    · rw [hadm] at hflood
      simp [hmt, hr, he, hflood, hadm, send_private_message, clients_get, hcc, hpc, hf]
    · rw [Bool.not_eq_true] at hadm
      rw [hadm] at hflood
      simp [hmt, hr, he, hflood, hadm, send_private_message, clients_get, hcc, hpc, hf]
  | none =>
    right
    refine ⟨fun p hp => by simpa using List.find?_eq_none.mp hf p hp, ?_⟩
    by_cases hadm : ud.is_admin = true
    · rw [hadm] at hflood
      simp [hmt, hr, he, hflood, hadm, send_private_message, clients_get, hcc, hpc, hf]
    · rw [Bool.not_eq_true] at hadm
      rw [hadm] at hflood
      simp [hmt, hr, he, hflood, hadm, send_private_message, clients_get, hcc, hpc, hf]

/-- Witness for private_message_routing: on the reachable two-user server
alice sends to bob, who shares no room beyond main; the frame reaches
exactly connection 2. -/
theorem private_message_routing_witness :
    (∃ pr : Nat × Session,
      stTwoUsers.clients.find? (fun p => p.snd.username == opt_str (privF "bob" "xx").recipient_username) = some pr ∧
      pr.snd.username = opt_str (privF "bob" "xx").recipient_username ∧
      (handle_message stTwoUsers 1 (privF "bob" "xx") 1000).snd =
        [Out.send pr.fst none (OutFrame.private_message "alice" (opt_str (privF "bob" "xx").encrypted_content) false)]) ∨
    ((∀ p ∈ stTwoUsers.clients, p.snd.username ≠ opt_str (privF "bob" "xx").recipient_username) ∧
      (handle_message stTwoUsers 1 (privF "bob" "xx") 1000).snd =
        [Out.send 1 none (OutFrame.error "User not found or offline")]) :=
  private_message_routing stTwoUsers 1
    { username := "alice", ip := "8.8.8.8", is_admin := false, joined_at := "t0", last_ping := 1000 }
    (privF "bob" "xx") 1000 (by decide) (by decide) (by decide) (by decide) (by decide)

/-! Claim C9: case-insensitive username uniqueness with case-preserving
display form. -/

/-- Two strings case-fold equal exactly when their character lists do. -/
theorem pyLower_eq_iff (v u : String) :
    pyLower v = pyLower u ↔ v.data.map Char.toLower = u.data.map Char.toLower := by
  unfold pyLower
  constructor
  · intro h; injection h
  · intro h; rw [h]

/-- A string is empty exactly when its character list is. -/
theorem str_eq_empty_iff (u : String) : u = "" ↔ u.data = [] := by
  cases u with
  | mk d =>
    constructor
    · intro h; simpa using congrArg String.data h
    · intro h; exact congrArg String.mk h

/-- The element just added by set_add is a member. -/
theorem mem_set_add (l : List String) (x : String) : x ∈ set_add l x := by
  unfold set_add
  split
  · next h => exact List.elem_iff.mp h
  · simp

/-- validate_username answers Username-is-already-taken exactly when some
reserved name matches the request under case-folding (the reserved names
being well-formed, as every reserved name is). -/
theorem validate_taken_iff (usernames : List String) (u : String)
    (hvalid : ∀ v ∈ usernames, v.data ≠ [] ∧ v.data.all isUnameChar = true ∧
      2 ≤ v.data.length ∧ v.data.length ≤ 20) :
    (validate_username usernames u = (false, "Username is already taken")) ↔
      ∃ v ∈ usernames, pyLower v = pyLower u := by
  unfold validate_username
  constructor
  · intro h
    split at h
    · simp at h
    · split at h
      · simp at h
      · split at h
        · simp at h
        · split at h
          · next hcont =>
            have : pyLower u ∈ usernames.map pyLower := by
              simpa [List.elem_iff] using hcont
            obtain ⟨v, hv, hveq⟩ := List.mem_map.mp this
            exact ⟨v, hv, hveq⟩
          · simp at h
  · rintro ⟨v, hv, hveq⟩
    obtain ⟨hvne, hvall, hvlen1, hvlen2⟩ := hvalid v hv
    have hmap : v.data.map Char.toLower = u.data.map Char.toLower := (pyLower_eq_iff v u).mp hveq
    have hlen : u.data.length = v.data.length := by
      have := congrArg List.length hmap
      simpa using this.symm
    have hune : ¬ (u = "") := by
      rw [str_eq_empty_iff]
      intro hx
      rw [hx] at hlen
      exact hvne (List.length_eq_zero.mp hlen.symm)
    have hall : u.data.all isUnameChar = true := all_uname_of_map_toLower_eq u.data v.data hvall hmap.symm
    rw [if_neg (by simpa using hune)]
    rw [if_neg (by simp [hune, hall])]
    rw [if_neg (show ¬ ((u.data.length < 2 || u.data.length > 20) = true) by
      simp only [Bool.or_eq_true, decide_eq_true_eq]; rw [hlen]; omega)]
    rw [if_pos (by simp only [List.elem_iff]; exact List.mem_map.mpr ⟨v, hv, hveq⟩)]

/-- A registration with a valid chosen name stores that exact string, with
its original casing, both as the session identity and in the reserved set. -/
theorem register_preserves_case (st : ServerState) (conn : Nat) (ip u : String) (now : Nat) (iso : String)
    (hban : st.banned_ips.contains ip = false)
    (hv : (validate_username st.usernames u).fst = true) :
    (register_client st conn ip (some u) now iso).fst =
      some { username := u, ip := ip, is_admin := false, joined_at := iso, last_ping := now } ∧
    u ∈ (register_client st conn ip (some u) now iso).snd.fst.usernames := by
  unfold register_client
  rw [if_neg (show ¬ (st.banned_ips.contains ip = true) by rw [hban]; simp)]
  simp only [hv, if_true, register_finish]
  constructor
  · trivial
  · split
    · next h => simpa using mem_set_add st.usernames u
    · simpa using mem_set_add st.usernames u

/-- The changeuname command refuses a name that case-fold matches any
reserved name, with the Username-is-already-taken error and no state
change. -/
theorem changeuname_taken (st : ServerState) (conn : Nat) (ud : Session) (u : String)
    (hc : clients_get st conn = some ud)
    (hvalid : ∀ v ∈ st.usernames, v.data ≠ [] ∧ v.data.all isUnameChar = true ∧
      2 ≤ v.data.length ∧ v.data.length ≤ 20)
    (hmatch : ∃ v ∈ st.usernames, pyLower v = pyLower u) :
    handle_username_change st conn u =
      (st, [Out.send conn none (OutFrame.error "Cannot change username: Username is already taken")]) := by
  have hval := (validate_taken_iff st.usernames u hvalid).mpr hmatch
  unfold handle_username_change
  rw [hc]
  rw [hval]
  simp

/-- C9: validate_username reports Username-is-already-taken exactly when
some reserved name matches the request under case-folding (given the
well-formedness every reserved name has); a registration with a valid
chosen name stores the name with its original casing as the display form;
and changeuname rejects a case-fold collision with the same taken error. -/
theorem username_casefold_unique :
    (∀ (usernames : List String) (u : String),
      (∀ v ∈ usernames, v.data ≠ [] ∧ v.data.all isUnameChar = true ∧
        2 ≤ v.data.length ∧ v.data.length ≤ 20) →
      ((validate_username usernames u = (false, "Username is already taken")) ↔
        ∃ v ∈ usernames, pyLower v = pyLower u)) ∧
    (∀ (st : ServerState) (conn : Nat) (ip u : String) (now : Nat) (iso : String),
      st.banned_ips.contains ip = false →
      (validate_username st.usernames u).fst = true →
      (register_client st conn ip (some u) now iso).fst =
        some { username := u, ip := ip, is_admin := false, joined_at := iso, last_ping := now } ∧
      u ∈ (register_client st conn ip (some u) now iso).snd.fst.usernames) ∧
    (∀ (st : ServerState) (conn : Nat) (ud : Session) (u : String),
      clients_get st conn = some ud →
      (∀ v ∈ st.usernames, v.data ≠ [] ∧ v.data.all isUnameChar = true ∧
        2 ≤ v.data.length ∧ v.data.length ≤ 20) →
      (∃ v ∈ st.usernames, pyLower v = pyLower u) →
      handle_username_change st conn u =
        (st, [Out.send conn none (OutFrame.error "Cannot change username: Username is already taken")])) :=
  ⟨validate_taken_iff, register_preserves_case, changeuname_taken⟩

/-- Witness for username_casefold_unique: alice collides with the reserved
Alice; Bob registers and keeps his casing; on the reachable server the
session Alice cannot rename to alice. -/
theorem username_casefold_unique_witness :
    ((validate_username ["Alice"] "alice" = (false, "Username is already taken")) ↔
      ∃ v ∈ ["Alice"], pyLower v = pyLower "alice") ∧
    ((register_client (initServer "PW" []) 4 "5.5.5.5" (some "Bob") 1000 "t0").fst =
      some { username := "Bob", ip := "5.5.5.5", is_admin := false, joined_at := "t0", last_ping := 1000 } ∧
     "Bob" ∈ (register_client (initServer "PW" []) 4 "5.5.5.5" (some "Bob") 1000 "t0").snd.fst.usernames) ∧
    handle_username_change stAdminAlice 2 "alice" =
      (stAdminAlice, [Out.send 2 none (OutFrame.error "Cannot change username: Username is already taken")]) :=
  ⟨username_casefold_unique.1 ["Alice"] "alice" (by decide),
   username_casefold_unique.2.1 (initServer "PW" []) 4 "5.5.5.5" "Bob" 1000 "t0" (by decide) (by decide),
   username_casefold_unique.2.2 stAdminAlice 2
     { username := "Alice", ip := "7.7.7.7", is_admin := false, joined_at := "t0", last_ping := 1000 }
     "alice" (by decide) (by decide) (by decide)⟩

/-! Claim C10: per-username lookups are exact and case-sensitive. -/

/-- No session matches the target name exactly, as a find? fact. -/
theorem find_user_none (st : ServerState) (target : String)
    (hmiss : ∀ p ∈ st.clients, p.snd.username ≠ target) :
    st.clients.find? (fun p => p.snd.username == target) = none := by
  rw [List.find?_eq_none]
  intro p hp
  simpa using hmiss p hp

/-- C10: the kick, ban, and userinfo commands and the private-message
recipient resolution all compare usernames by exact equality: whenever no
session carries exactly the target string, each lookup reports not-found
(respectively fails the delivery), even if a session matches the target
under case-folding. -/
theorem exact_lookup_not_found (st : ServerState) (conn : Nat) (ud : Session) (target e : String)
    (hc : clients_get st conn = some ud) (ha : ud.is_admin = true)
    (hmiss : ∀ p ∈ st.clients, p.snd.username ≠ target) :
    handle_kick_command st conn target =
      (st, [Out.send conn none (OutFrame.error ("User " ++ target ++ " not found"))]) ∧
    handle_ban_command st conn target =
      (st, [Out.send conn none (OutFrame.error ("User " ++ target ++ " not found"))]) ∧
    handle_user_info_command st conn target =
      (st, [Out.send conn none (OutFrame.error ("User " ++ target ++ " not found"))]) ∧
    send_private_message st conn target e = (false, []) := by
  have hf := find_user_none st target hmiss
  refine ⟨?_, ?_, ?_, ?_⟩
  · unfold handle_kick_command
    rw [hc]
    simp [ha, hf]
  · unfold handle_ban_command
    rw [hc]
    simp [ha, hf]
  · unfold handle_user_info_command
    rw [hc]
    simp [ha, hf]
  · unfold send_private_message
    rw [hc]
    simp [hf]

/-- Witness for exact_lookup_not_found: the reachable server holds a
session named Alice; the target alice case-fold matches it, yet every
lookup reports not-found. -/
theorem exact_lookup_not_found_witness :
    (handle_kick_command stAdminAlice 1 "alice" =
      (stAdminAlice, [Out.send 1 none (OutFrame.error "User alice not found")])) ∧
    (handle_ban_command stAdminAlice 1 "alice" =
      (stAdminAlice, [Out.send 1 none (OutFrame.error "User alice not found")])) ∧
    (handle_user_info_command stAdminAlice 1 "alice" =
      (stAdminAlice, [Out.send 1 none (OutFrame.error "User alice not found")])) ∧
    send_private_message stAdminAlice 1 "alice" "xx" = (false, []) ∧
    pyLower "Alice" = pyLower "alice" := by
  have h := exact_lookup_not_found stAdminAlice 1
    { username := "Admin1", ip := "8.8.8.8", is_admin := true, joined_at := "t0", last_ping := 1000 }
    "alice" "xx" (by decide) (by decide) (by decide)
  exact ⟨h.1, h.2.1, h.2.2.1, h.2.2.2, by decide⟩

end Chat
